import Mathlib

/-!
Shallow embedding of the blainder-range-scanner material/texture core
(`range_scanner/material_helper.py` and `range_scanner/error_distribution.py`).

Python floats are modelled by `ℚ` (exact arithmetic), Python/Blender
sequences by `List`, and raised exceptions by `Except PyError`.
Python sequence indexing (including numpy object arrays) supports negative
indices that wrap from the end; this is modelled faithfully by `pyIdx`.
-/

namespace RangeScanner

/-- Kinds of runtime failure. The first four are the exceptions Python itself
raises at the relevant places of `material_helper.py`.  `missingUVMapError` and
`emptyTextureError` are the typed error names used by the specification; they
are listed here only so that statements can compare against them — the embedded
code never produces them. -/
inductive PyError where
  | indexError
  | attributeError
  | assertionError
  | keyError
  | missingUVMapError
  | emptyTextureError
  deriving DecidableEq, Repr

/-- RGBA colour: four floats. -/
abbrev RGBA : Type := ℚ × ℚ × ℚ × ℚ

/-- 2D vector (a `mathutils.Vector` of length 2). -/
abbrev V2 : Type := ℚ × ℚ

/-- 3D vector (a `mathutils.Vector` of length 3). -/
abbrev V3 : Type := ℚ × ℚ × ℚ

/-- Normalise a Python sequence index: a negative index counts from the end
(`l[-1]` is the last element); an index out of range on either side raises
`IndexError`. Returns the normalised non-negative position. -/
def pyNormIdx (len : ℕ) (i : ℤ) : Except PyError ℕ :=
  if 0 ≤ i then
    if i < (len : ℤ) then .ok i.toNat else .error .indexError
  else
    if 0 ≤ i + (len : ℤ) then .ok (i + (len : ℤ)).toNat else .error .indexError

/-- Python sequence indexing `l[i]` with an `ℤ` index (negative wraps from the
end, out of range raises `IndexError`). -/
def pyIdx {α : Type} (l : List α) (i : ℤ) : Except PyError α := do
  let j ← pyNormIdx l.length i
  match l.get? j with
  | some x => .ok x
  | none => .error .indexError

/-- Python sequence indexing with a natural-number index. -/
def pyGetN {α : Type} (l : List α) (i : ℕ) : Except PyError α :=
  match l.get? i with
  | some x => .ok x
  | none => .error .indexError

/-- The element of `l` at position `n` (0 when out of range); used only to
state theorems about in-bounds reads. -/
def elemAt (l : List ℚ) (n : ℕ) : ℚ :=
  (l.get? n).getD 0

/-- Python `x % 1` on floats: the fractional part `x - ⌊x⌋`, always in `[0,1)`. -/
def pyMod1 (q : ℚ) : ℚ :=
  q - ⌊q⌋

/-- Python 3 builtin `round` on a float: round to the nearest integer, ties to
even (banker's rounding). -/
def pyRound (q : ℚ) : ℤ :=
  let f : ℤ := ⌊q⌋
  let frac : ℚ := q - f
  if frac < 1 / 2 then f
  else if 1 / 2 < frac then f + 1
  else if f % 2 = 0 then f else f + 1

/-- The module-local `Image` class of `material_helper.py` (also standing in
for a `bpy.types.Image`): a flat RGBA pixel buffer and a `(width, height)`
size. -/
structure Image where
  pixels : List ℚ
  size : ℤ × ℤ
  deriving Repr

/-- `MaterialProperty` of `material_helper.py`: per-slot appearance data.
`color`/`texture` are `Option`s because the constructor is called with `None`
for the one that does not apply. -/
structure MaterialProperty where
  color : Option RGBA
  texture : Option Image
  metallic : ℚ
  ior : ℚ
  deriving Repr

/-- A node feeding the `Base Color` input of a principled BSDF node, as the
source inspects it: the code tests `from_node.type == "TEX_IMAGE"` and reads
`from_node.image` only in that case. -/
inductive TexNode where
  | texImage (image : Image)
  | otherNode (ty : String)
  deriving Repr

/-- A shader node connected to the `Material Output` node's `Surface` input.
The source dispatches on `node.type` and reads only the named input sockets
carried here; for any other node kind it reads only `node.type`. -/
inductive ShaderNode where
  | bsdfGlass (color : RGBA) (ior : ℚ)
  | bsdfPrincipled (baseColorLinks : List TexNode) (baseColor : RGBA) (metallic : ℚ)
  | unknown (ty : String)
  deriving Repr

/-- The string `node.type` of a shader node, printed for unknown kinds. -/
def ShaderNode.nodeType : ShaderNode → String
  | .bsdfGlass _ _ => "BSDF_GLASS"
  | .bsdfPrincipled _ _ _ => "BSDF_PRINCIPLED"
  | .unknown ty => ty

/-- A `bpy.types.Material`: when `use_nodes` is false the code reads
`diffuse_color` and `metallic`; when it is true it walks the links into the
Material Output node's Surface socket (`surfaceLinks` is `link.from_node` for
each of those links, in order). -/
structure Material where
  use_nodes : Bool
  diffuse_color : RGBA
  metallic : ℚ
  surfaceLinks : List ShaderNode
  deriving Repr

/-- One UV layer: `data[i].uv` for each mesh loop index `i`. -/
structure UVLayer where
  data : List V2
  deriving Repr

/-- A mesh face (`bpy.types.MeshPolygon`): vertex indices and loop indices. -/
structure Face where
  vertices : List ℕ
  loop_indices : List ℕ
  deriving Repr

/-- Mesh data: vertex coordinates, faces, and the active UV layer (`none` when
the mesh has no UV map). -/
structure Mesh where
  vertices : List V3
  polygons : List Face
  uv_layers_active : Option UVLayer
  deriving Repr

/-- A scene object (`bpy.types.Object`): its name, material slots
(`slot.material`, `none` for an empty slot), its mesh data, and the function
`p ↦ matrix_world.inverted() @ p` (the mathutils inverse world transform,
external to this repository, kept abstract as a function). -/
structure Object where
  name : String
  material_slots : List (Option Material)
  data : Mesh
  matrix_world_inverted : V3 → V3

/-- A ray hit as consumed by `getMaterialColorAndMetallic`: the hit object,
face index and 3D location. -/
structure Hit where
  target : Object
  faceIndex : ℕ
  location : V3

/-- The weighted UV sum `sum((p * w for p, w in zip(luv, lwts)), Vector((0, 0)))`
of `getUVCoord`: `zip` truncates to the shorter list. -/
def uvInterp (luv : List V2) (lwts : List ℚ) : V2 :=
  (luv.zip lwts).foldl (fun a pw => (a.1 + pw.1.1 * pw.2, a.2 + pw.1.2 * pw.2)) (0, 0)

/-- The tail of `getUVCoord` after barycentric interpolation: wrap both UV
components into `[0,1)` with `% 1`, then map to integer pixel coordinates with
`round(u * (w - 1))`, `round(v * (h - 1))`. -/
def uvToPixelCoord (uv_loc : V2) (imageSize : ℤ × ℤ) : ℤ × ℤ :=
  let u := pyMod1 uv_loc.1
  let v := pyMod1 uv_loc.2
  (pyRound (u * ((imageSize.1 : ℚ) - 1)), pyRound (v * ((imageSize.2 : ℚ) - 1)))

/-- `getUVCoord` of `material_helper.py`.  `poly3dCalc` stands for the external
`mathutils.interpolate.poly_3d_calc` (barycentric weights), which is not part
of this repository.  The `assert uv_layer is not None` raises a plain
`AssertionError` when the mesh has no active UV layer. -/
def getUVCoord (poly3dCalc : List V3 → V3 → List ℚ) (mesh : Mesh) (face : Face)
    (point : V3) (imageSize : ℤ × ℤ) : Except PyError (ℤ × ℤ) := do
  match mesh.uv_layers_active with
  | none => .error .assertionError
  | some uv_layer => do
    let uv := uv_layer.data
    let lco ← face.vertices.mapM (pyGetN mesh.vertices)
    let luv ← face.loop_indices.mapM (pyGetN uv)
    let lwts := poly3dCalc lco point
    let uv_loc := uvInterp luv lwts
    .ok (uvToPixelCoord uv_loc imageSize)

/-- `getPixel` of `material_helper.py`: linear pixel index
`imageSize[0] * y + x`, then four consecutive reads of the flat buffer with
Python list indexing (so a negative index wraps from the end and an index past
the end raises `IndexError`). -/
def getPixel (uv_pixels : List ℚ) (imageSize : ℤ × ℤ) (uv_coord : ℤ × ℤ) :
    Except PyError RGBA := do
  let pixelNumber := imageSize.1 * uv_coord.2 + uv_coord.1
  let r ← pyIdx uv_pixels (pixelNumber * 4 + 0)
  let g ← pyIdx uv_pixels (pixelNumber * 4 + 1)
  let b ← pyIdx uv_pixels (pixelNumber * 4 + 2)
  let a ← pyIdx uv_pixels (pixelNumber * 4 + 3)
  .ok (r, g, b, a)

/-- The texture sampling pipeline on an already-interpolated UV location: the
wrap/round tail of `getUVCoord` followed by `getPixel`. -/
def samplePipeline (u v : ℚ) (imageSize : ℤ × ℤ) (pixels : List ℚ) :
    Except PyError RGBA :=
  getPixel pixels imageSize (uvToPixelCoord (u, v) imageSize)

/-- `getUVPixelColor` of `material_helper.py`.  The leading
`assert image is not None and image.pixels is not None and len(image.pixels) > 0`
raises a plain `AssertionError` on an empty pixel buffer. -/
def getUVPixelColor (poly3dCalc : List V3 → V3 → List ℚ) (mesh : Mesh)
    (face_idx : ℕ) (point : V3) (image : Image) : Except PyError RGBA :=
  if image.pixels.length > 0 then do
    let face ← pyGetN mesh.polygons face_idx
    let uv_coord ← getUVCoord poly3dCalc mesh face point image.size
    getPixel image.pixels image.size uv_coord
  else .error .assertionError

/-- One iteration of the `for link in links` loop of `getTargetMaterials`:
a glass or principled node overwrites the slot's entry, an unknown node only
prints two lines (`"Unknown material type for object <name>!"` and the node's
type) and leaves the entry as it was. -/
def resolveNodeStep (targetName : String) (acc : Option MaterialProperty × List String)
    (node : ShaderNode) : Option MaterialProperty × List String :=
  match node with
  | .bsdfGlass color ior => (some ⟨some color, none, 0, ior⟩, acc.2)
  | .bsdfPrincipled baseColorLinks baseColor metallic =>
    match baseColorLinks with
    | .texImage image :: _ =>
      (some ⟨none, some ⟨image.pixels, image.size⟩, metallic, 0⟩, acc.2)
    | .otherNode _ :: _ =>
      (some ⟨some baseColor, none, metallic, 0⟩, acc.2)
    | [] =>
      (some ⟨some baseColor, none, metallic, 0⟩, acc.2)
  | .unknown ty =>
    (acc.1, acc.2 ++ ["Unknown material type for object " ++ targetName ++ "!", ty])

/-- The per-slot body of the `getTargetMaterials` loop: given
`slot.material`, produce the slot's `MaterialProperty` entry (`none` models
the `np.empty` cell never being assigned) together with the lines printed for
it. -/
def resolveSlotEntry (debugOutput : Bool) (targetName : String)
    (slot : Option Material) : Option MaterialProperty × List String :=
  match slot with
  | none =>
    (none, if debugOutput then ["WARNING: No material set for object " ++ targetName ++ "!"] else [])
  | some material =>
    if material.use_nodes = false then
      (some ⟨some material.diffuse_color, none, material.metallic, 0⟩, [])
    else
      material.surfaceLinks.foldl (resolveNodeStep targetName) (none, [])

/-- `getTargetMaterials` of `material_helper.py`: one entry per material slot
of `target` (the `np.empty(materialCount, ...)` object array starts as all
`None` and slot `i` is only assigned from slot `i`'s material).  The second
component collects everything printed to the console. -/
def getTargetMaterials (debugOutput : Bool) (target : Object) :
    List (Option MaterialProperty) × List String :=
  let results := target.material_slots.map (resolveSlotEntry debugOutput target.name)
  (results.map Prod.fst, (results.map Prod.snd).flatten)

/-- `getMaterialColorAndMetallic` of `material_helper.py`, specialised to the
pair `materialMappings[hit.target] = (materials, faceMapping)` already looked
up for the hit's target.  `materials` is the slot table built by
`getTargetMaterials` and `faceMapping` the face→slot index array.  When the
entry carries a texture the hit location is moved to the target's local space
and the sampled RGBA overwrites the shared entry's `color` field in place; the
returned property is that same (updated) table entry.  A `None` table entry
makes `material.texture` raise `AttributeError`; an out-of-range slot index
raises `IndexError`. -/
def getMaterialColorAndMetallic (poly3dCalc : List V3 → V3 → List ℚ) (hit : Hit)
    (materials : List (Option MaterialProperty)) (faceMapping : List ℤ) :
    Except PyError (List (Option MaterialProperty) × MaterialProperty) := do
  let materialIndex ← pyIdx faceMapping (hit.faceIndex : ℤ)
  let slot ← pyNormIdx materials.length materialIndex
  match materials.get? slot with
  | none => .error .indexError
  | some none => .error .attributeError
  | some (some material) =>
    match material.texture with
    | none => .ok (materials, material)
    | some texture => do
      let newPoint := hit.target.matrix_world_inverted hit.location
      let rgba ← getUVPixelColor poly3dCalc hit.target.data hit.faceIndex newPoint texture
      let updated : MaterialProperty := { material with color := some rgba }
      .ok (materials.set slot (some updated), updated)

/-- `applyNoise` of `error_distribution.py` on a scalar mean.  The external
`np.random.default_rng().normal(mu, sigma)` draws `mu + sigma * z` where `z`
is a standard-normal variate; the variate is passed in explicitly as `gauss`
since the generator is external to this repository. -/
def applyNoise (gauss : ℚ) (mu sigma : ℚ) : ℚ :=
  mu + sigma * gauss

/-- `applyNoise` on an array-valued mean with a scalar standard deviation:
numpy broadcasting draws one standard-normal variate per element. -/
def applyNoiseVec (gauss : List ℚ) (mu : List ℚ) (sigma : ℚ) : List ℚ :=
  (mu.zip gauss).map (fun p => p.1 + sigma * p.2)

/-! ### Basic lemmas about the Python-arithmetic helpers -/

theorem pyMod1_eq_fract (q : ℚ) : pyMod1 q = Int.fract q := rfl

theorem pyMod1_nonneg (q : ℚ) : 0 ≤ pyMod1 q := by
  rw [pyMod1_eq_fract]; exact Int.fract_nonneg q

theorem pyMod1_lt_one (q : ℚ) : pyMod1 q < 1 := by
  rw [pyMod1_eq_fract]; exact Int.fract_lt_one q

theorem pyMod1_eq_self {q : ℚ} (h0 : 0 ≤ q) (h1 : q < 1) : pyMod1 q = q := by
  rw [pyMod1_eq_fract]; exact Int.fract_eq_self.mpr ⟨h0, h1⟩

theorem pyMod1_add_one (q : ℚ) : pyMod1 (q + 1) = pyMod1 q := by
  unfold pyMod1
  rw [Int.floor_add_one]
  push_cast
  ring

theorem pyRound_nonneg {q : ℚ} (h : 0 ≤ q) : 0 ≤ pyRound q := by
  have hf : (0 : ℤ) ≤ ⌊q⌋ := Int.floor_nonneg.mpr h
  unfold pyRound
  dsimp only
  split
  · exact hf
  · split
    · omega
    · split <;> omega

theorem pyRound_le {q : ℚ} {m : ℤ} (h : q ≤ (m : ℚ)) : pyRound q ≤ m := by
  have hfm : ⌊q⌋ ≤ m := by
    have := Int.floor_le_floor h
    simpa using this
  rcases lt_or_eq_of_le hfm with hlt | heq
  · unfold pyRound
    dsimp only
    split
    · omega
    · split
      · omega
      · split <;> omega
  · have hq : q = (m : ℚ) := by
      have h1 : (m : ℚ) ≤ q := by
        rw [← heq]; exact Int.floor_le q
      exact le_antisymm h h1
    unfold pyRound
    dsimp only
    have hfrac : q - (⌊q⌋ : ℚ) = 0 := by rw [heq, hq]; ring
    rw [hfrac]
    norm_num
    exact hfm

theorem pyNormIdx_ok {len : ℕ} {i : ℤ} (h0 : 0 ≤ i) (h1 : i < (len : ℤ)) :
    pyNormIdx len i = .ok i.toNat := by
  unfold pyNormIdx
  rw [if_pos h0, if_pos h1]

theorem pyIdx_ok {l : List ℚ} {i : ℤ} (h0 : 0 ≤ i) (h1 : i < (l.length : ℤ)) :
    pyIdx l i = .ok (elemAt l i.toNat) := by
  unfold pyIdx
  rw [pyNormIdx_ok h0 h1]
  have hlt : i.toNat < l.length := by omega
  have := List.get?_eq_get (l := l) (n := i.toNat) hlt
  simp only [Except.bind, bind]
  rw [this]
  unfold elemAt
  rw [this]
  rfl

/-! ### Claim theorems -/

/-- C1: for an image of size `w × h` (both positive) with a flat RGBA buffer
of length `w*h*4` and a wrapped UV coordinate `(u,v) ∈ [0,1)²`, the sampling
pipeline (the wrap/round tail of `getUVCoord` followed by `getPixel`) returns
exactly the four consecutive floats at offset
`(round(v*(h-1))*w + round(u*(w-1)))*4` of the buffer, with no interpolation. -/
theorem c1_nearest_neighbour_sampling (u v : ℚ) (w h : ℤ) (pixels : List ℚ)
    (hw : 0 < w) (hh : 0 < h) (hlen : (pixels.length : ℤ) = w * h * 4)
    (hu0 : 0 ≤ u) (hu1 : u < 1) (hv0 : 0 ≤ v) (hv1 : v < 1) :
    samplePipeline u v (w, h) pixels =
      .ok (elemAt pixels ((pyRound (v * ((h : ℚ) - 1)) * w + pyRound (u * ((w : ℚ) - 1))) * 4).toNat,
           elemAt pixels (((pyRound (v * ((h : ℚ) - 1)) * w + pyRound (u * ((w : ℚ) - 1))) * 4).toNat + 1),
           elemAt pixels (((pyRound (v * ((h : ℚ) - 1)) * w + pyRound (u * ((w : ℚ) - 1))) * 4).toNat + 2),
           elemAt pixels (((pyRound (v * ((h : ℚ) - 1)) * w + pyRound (u * ((w : ℚ) - 1))) * 4).toNat + 3)) := by
  have hwq : (0 : ℚ) ≤ (w : ℚ) - 1 := by
    have : (1 : ℚ) ≤ (w : ℚ) := by exact_mod_cast hw
    linarith
  have hhq : (0 : ℚ) ≤ (h : ℚ) - 1 := by
    have : (1 : ℚ) ≤ (h : ℚ) := by exact_mod_cast hh
    linarith
  have hx0 : 0 ≤ pyRound (u * ((w : ℚ) - 1)) := pyRound_nonneg (mul_nonneg hu0 hwq)
  have hy0 : 0 ≤ pyRound (v * ((h : ℚ) - 1)) := pyRound_nonneg (mul_nonneg hv0 hhq)
  have hx1 : pyRound (u * ((w : ℚ) - 1)) ≤ w - 1 := by
    apply pyRound_le
    have : u * ((w : ℚ) - 1) ≤ 1 * ((w : ℚ) - 1) :=
      mul_le_mul_of_nonneg_right (le_of_lt hu1) hwq
    push_cast
    linarith
  have hy1 : pyRound (v * ((h : ℚ) - 1)) ≤ h - 1 := by
    apply pyRound_le
    have : v * ((h : ℚ) - 1) ≤ 1 * ((h : ℚ) - 1) :=
      mul_le_mul_of_nonneg_right (le_of_lt hv1) hhq
    push_cast
    linarith
  unfold samplePipeline uvToPixelCoord getPixel
  dsimp only
  rw [pyMod1_eq_self hu0 hu1, pyMod1_eq_self hv0 hv1]
  set x := pyRound (u * ((w : ℚ) - 1)) with hxdef
  set y := pyRound (v * ((h : ℚ) - 1)) with hydef
  have hpn : w * y + x ≤ w * h - 1 := by nlinarith
  have hpn0 : 0 ≤ w * y + x := by positivity
  have hb0 : (w * y + x) * 4 + 0 < (pixels.length : ℤ) := by omega
  have hb1 : (w * y + x) * 4 + 1 < (pixels.length : ℤ) := by omega
  have hb2 : (w * y + x) * 4 + 2 < (pixels.length : ℤ) := by omega
  have hb3 : (w * y + x) * 4 + 3 < (pixels.length : ℤ) := by omega
  rw [pyIdx_ok (by omega) hb0, pyIdx_ok (by omega) hb1,
      pyIdx_ok (by omega) hb2, pyIdx_ok (by omega) hb3]
  simp only [Except.bind, bind]
  have hyw : y * w = w * y := mul_comm y w
  have e0 : ((w * y + x) * 4 + 0).toNat = ((y * w + x) * 4).toNat := by omega
  have e1 : ((w * y + x) * 4 + 1).toNat = ((y * w + x) * 4).toNat + 1 := by omega
  have e2 : ((w * y + x) * 4 + 2).toNat = ((y * w + x) * 4).toNat + 2 := by omega
  have e3 : ((w * y + x) * 4 + 3).toNat = ((y * w + x) * 4).toNat + 3 := by omega
  rw [e0, e1, e2, e3]

/-- C1 witness: the claim's 2×2 scenario. Applying the theorem at the texture
`[[1,0,0,1],[0,1,0,1],[0,0,1,1],[1,1,0,1]]` with UV `(0.99, 0.99)` yields the
texel `(1,1,0,1)`, and with UV `(0,0)` the texel `(1,0,0,1)`. -/
theorem c1_nearest_neighbour_sampling_witness :
    samplePipeline (99 / 100) (99 / 100) (2, 2)
        [1, 0, 0, 1, 0, 1, 0, 1, 0, 0, 1, 1, 1, 1, 0, 1] = .ok (1, 1, 0, 1) ∧
    samplePipeline 0 0 (2, 2)
        [1, 0, 0, 1, 0, 1, 0, 1, 0, 0, 1, 1, 1, 1, 0, 1] = .ok (1, 0, 0, 1) := by
  have h1 := c1_nearest_neighbour_sampling (99 / 100) (99 / 100) 2 2
    [1, 0, 0, 1, 0, 1, 0, 1, 0, 0, 1, 1, 1, 1, 0, 1]
    (by norm_num) (by norm_num) (by norm_num) (by norm_num) (by norm_num)
    (by norm_num) (by norm_num)
  have h2 := c1_nearest_neighbour_sampling 0 0 2 2
    [1, 0, 0, 1, 0, 1, 0, 1, 0, 0, 1, 1, 1, 1, 0, 1]
    (by norm_num) (by norm_num) (by norm_num) (by norm_num) (by norm_num)
    (by norm_num) (by norm_num)
  have hf : ⌊(99 / 100 : ℚ)⌋ = 0 := by norm_num [Int.floor_eq_iff]
  have hr1 : pyRound ((99 : ℚ) / 100 * (((2 : ℤ) : ℚ) - 1)) = 1 := by
    norm_num [pyRound, hf]
  have hr2 : pyRound ((0 : ℚ) * (((2 : ℤ) : ℚ) - 1)) = 0 := by
    norm_num [pyRound]
  rw [hr1] at h1
  rw [hr2] at h2
  constructor
  · rw [h1]
    rfl
  · rw [h2]
    rfl

/-- C8: UV wrapping is periodic — shifting an interpolated UV location by a
whole period `(u+1, v+1)` produces the same wrapped pixel coordinate, and
hence the same sampled texel, as `(u, v)`. -/
theorem c8_uv_wrap_periodic (uv : V2) (imageSize : ℤ × ℤ) (pixels : List ℚ) :
    uvToPixelCoord (uv.1 + 1, uv.2 + 1) imageSize = uvToPixelCoord uv imageSize ∧
    samplePipeline (uv.1 + 1) (uv.2 + 1) imageSize pixels =
      samplePipeline uv.1 uv.2 imageSize pixels := by
  have hcoord : uvToPixelCoord (uv.1 + 1, uv.2 + 1) imageSize = uvToPixelCoord uv imageSize := by
    unfold uvToPixelCoord
    rw [pyMod1_add_one, pyMod1_add_one]
  refine ⟨hcoord, ?_⟩
  unfold samplePipeline
  rw [hcoord]

/-! ### Lemmas about `getTargetMaterials` -/

theorem getTargetMaterials_length (debugOutput : Bool) (target : Object) :
    (getTargetMaterials debugOutput target).1.length = target.material_slots.length := by
  unfold getTargetMaterials
  simp

theorem getTargetMaterials_get? (debugOutput : Bool) (target : Object) (i : ℕ) :
    (getTargetMaterials debugOutput target).1.get? i =
      (target.material_slots.get? i).map
        (fun s => (resolveSlotEntry debugOutput target.name s).1) := by
  unfold getTargetMaterials
  simp only [List.get?_eq_getElem?, List.getElem?_map]
  cases target.material_slots[i]? <;> rfl

theorem resolveNodeStep_warn_mono (targetName : String) (links : List ShaderNode) :
    ∀ (acc : Option MaterialProperty × List String) (x : String), x ∈ acc.2 →
      x ∈ (links.foldl (resolveNodeStep targetName) acc).2 := by
  induction links with
  | nil => intro acc x hx; simpa using hx
  | cons n rest ih =>
    intro acc x hx
    simp only [List.foldl_cons]
    apply ih
    cases n with
    | bsdfGlass c ior => simpa [resolveNodeStep] using hx
    | bsdfPrincipled bcl bc met =>
      cases bcl with
      | nil => simpa [resolveNodeStep] using hx
      | cons hd tl =>
        cases hd <;> simpa [resolveNodeStep] using hx
    | unknown ty => simp [resolveNodeStep, hx]

theorem resolveNodeStep_fst_of_unknown (targetName : String) (links : List ShaderNode)
    (h : ∀ n ∈ links, ∃ ty, n = ShaderNode.unknown ty) :
    ∀ (acc : Option MaterialProperty × List String),
      (links.foldl (resolveNodeStep targetName) acc).1 = acc.1 := by
  induction links with
  | nil => intro acc; rfl
  | cons n rest ih =>
    intro acc
    obtain ⟨ty, hty⟩ := h n (List.mem_cons_self n rest)
    subst hty
    simp only [List.foldl_cons]
    rw [ih (fun m hm => h m (List.mem_cons_of_mem _ hm))]
    rfl

theorem resolveNodeStep_warn_of_unknown (targetName : String) (links : List ShaderNode)
    (ty : String) (hmem : ShaderNode.unknown ty ∈ links) :
    ∀ (acc : Option MaterialProperty × List String),
      ("Unknown material type for object " ++ targetName ++ "!") ∈
        (links.foldl (resolveNodeStep targetName) acc).2 := by
  induction links with
  | nil => cases hmem
  | cons n rest ih =>
    intro acc
    rcases List.mem_cons.mp hmem with heq | htail
    · subst heq
      simp only [List.foldl_cons]
      apply resolveNodeStep_warn_mono
      simp [resolveNodeStep]
    · simp only [List.foldl_cons]
      exact ih htail _

/-- C6: `getTargetMaterials` on a target with N material slots returns exactly
N entries, and entry i is a function of material slot i alone (slot-aligned),
however many slots are empty or carry unknown shader nodes. -/
theorem c6_slot_aligned_table (debugOutput : Bool) (target : Object) :
    (getTargetMaterials debugOutput target).1.length = target.material_slots.length ∧
    ∀ i : ℕ, (getTargetMaterials debugOutput target).1.get? i =
      (target.material_slots.get? i).map
        (fun s => (resolveSlotEntry debugOutput target.name s).1) :=
  ⟨getTargetMaterials_length debugOutput target,
   getTargetMaterials_get? debugOutput target⟩

/-- C2: the entry `getTargetMaterials` resolves for a slot, per material kind:
a non-node material gives `{color := diffuse_color, texture := none,
metallic := metallic, ior := 0}`; a glass BSDF node feeding the output surface
gives `{color := its Color input, texture := none, metallic := 0,
ior := its IOR input}`; a principled BSDF node whose Base Color input is fed
by an image-texture node gives `{color := none, texture := a copy of that
image's flat pixel buffer plus its size, metallic := its Metallic input,
ior := 0}`; and a principled BSDF node without such a texture link gives
`{color := its Base Color input, texture := none, metallic := its Metallic
input, ior := 0}`. -/
theorem c2_material_kinds (debugOutput : Bool) (target : Object) (i : ℕ) :
    (∀ dc met ls, target.material_slots.get? i = some (some ⟨false, dc, met, ls⟩) →
      (getTargetMaterials debugOutput target).1.get? i =
        some (some ⟨some dc, none, met, 0⟩)) ∧
    (∀ dc met c ior,
      target.material_slots.get? i = some (some ⟨true, dc, met, [.bsdfGlass c ior]⟩) →
      (getTargetMaterials debugOutput target).1.get? i =
        some (some ⟨some c, none, 0, ior⟩)) ∧
    (∀ dc met img rest bc bmet,
      target.material_slots.get? i =
        some (some ⟨true, dc, met, [.bsdfPrincipled (.texImage img :: rest) bc bmet]⟩) →
      (getTargetMaterials debugOutput target).1.get? i =
        some (some ⟨none, some ⟨img.pixels, img.size⟩, bmet, 0⟩)) ∧
    (∀ dc met bc bmet,
      target.material_slots.get? i =
        some (some ⟨true, dc, met, [.bsdfPrincipled [] bc bmet]⟩) →
      (getTargetMaterials debugOutput target).1.get? i =
        some (some ⟨some bc, none, bmet, 0⟩)) ∧
    (∀ dc met ty rest bc bmet,
      target.material_slots.get? i =
        some (some ⟨true, dc, met, [.bsdfPrincipled (.otherNode ty :: rest) bc bmet]⟩) →
      (getTargetMaterials debugOutput target).1.get? i =
        some (some ⟨some bc, none, bmet, 0⟩)) := by
  refine ⟨?_, ?_, ?_, ?_, ?_⟩ <;> intro dc met
  · intro ls hslot
    rw [getTargetMaterials_get?, hslot]
    simp [resolveSlotEntry]
  · intro c ior hslot
    rw [getTargetMaterials_get?, hslot]
    simp [resolveSlotEntry, resolveNodeStep]
  · intro img rest bc bmet hslot
    rw [getTargetMaterials_get?, hslot]
    simp [resolveSlotEntry, resolveNodeStep]
  · intro bc bmet hslot
    rw [getTargetMaterials_get?, hslot]
    simp [resolveSlotEntry, resolveNodeStep]
  · intro ty rest bc bmet hslot
    rw [getTargetMaterials_get?, hslot]
    simp [resolveSlotEntry, resolveNodeStep]

/-- A concrete five-slot target exercising every material kind of C2: simple,
glass, principled with image texture, principled without Base Color links,
and principled with a non-texture Base Color link. -/
def sampleTargetKinds : Object :=
  ⟨"cube",
   [some ⟨false, (1 / 5, 3 / 10, 2 / 5, 1 / 2), 1 / 10, []⟩,
    some ⟨true, (0, 0, 0, 0), 0, [.bsdfGlass (0, 0, 1, 1) (3 / 2)]⟩,
    some ⟨true, (0, 0, 0, 0), 0,
      [.bsdfPrincipled [.texImage ⟨[1, 0, 0, 1], (1, 1)⟩] (0, 0, 0, 0) (7 / 10)]⟩,
    some ⟨true, (0, 0, 0, 0), 0, [.bsdfPrincipled [] (1, 1, 1, 1) (2 / 5)]⟩,
    some ⟨true, (0, 0, 0, 0), 0, [.bsdfPrincipled [.otherNode "RGB"] (1, 0, 1, 1) (1 / 4)]⟩],
   ⟨[], [], none⟩, id⟩

/-- C2 witness: the theorem applied to `sampleTargetKinds`, giving the
expected entry for each of the five material kinds. -/
theorem c2_material_kinds_witness :
    (getTargetMaterials true sampleTargetKinds).1.get? 0 =
      some (some ⟨some (1 / 5, 3 / 10, 2 / 5, 1 / 2), none, 1 / 10, 0⟩) ∧
    (getTargetMaterials true sampleTargetKinds).1.get? 1 =
      some (some ⟨some (0, 0, 1, 1), none, 0, 3 / 2⟩) ∧
    (getTargetMaterials true sampleTargetKinds).1.get? 2 =
      some (some ⟨none, some ⟨[1, 0, 0, 1], (1, 1)⟩, 7 / 10, 0⟩) ∧
    (getTargetMaterials true sampleTargetKinds).1.get? 3 =
      some (some ⟨some (1, 1, 1, 1), none, 2 / 5, 0⟩) ∧
    (getTargetMaterials true sampleTargetKinds).1.get? 4 =
      some (some ⟨some (1, 0, 1, 1), none, 1 / 4, 0⟩) :=
  ⟨(c2_material_kinds true sampleTargetKinds 0).1 _ _ _ rfl,
   (c2_material_kinds true sampleTargetKinds 1).2.1 _ _ _ _ rfl,
   (c2_material_kinds true sampleTargetKinds 2).2.2.1 _ _ _ _ _ _ rfl,
   (c2_material_kinds true sampleTargetKinds 3).2.2.2.1 _ _ _ _ rfl,
   (c2_material_kinds true sampleTargetKinds 4).2.2.2.2 _ _ _ _ _ _ rfl⟩

/-- C7: `getTargetMaterials` never fails on empty slots or unknown node
kinds — it is total.  An empty slot leaves its entry empty; a material all of
whose surface nodes are of unknown kind leaves its entry empty, emits the
observable `"Unknown material type ..."` warning for each unknown node, and
the table of all N slots is still returned. -/
theorem c7_degrades_without_exception (debugOutput : Bool) (target : Object) :
    (getTargetMaterials debugOutput target).1.length = target.material_slots.length ∧
    (∀ i : ℕ, target.material_slots.get? i = some none →
      (getTargetMaterials debugOutput target).1.get? i = some none) ∧
    (∀ (i : ℕ) dc met links,
      target.material_slots.get? i = some (some ⟨true, dc, met, links⟩) →
      (∀ n ∈ links, ∃ ty, n = ShaderNode.unknown ty) →
      (getTargetMaterials debugOutput target).1.get? i = some none ∧
      ∀ ty, ShaderNode.unknown ty ∈ links →
        ("Unknown material type for object " ++ target.name ++ "!") ∈
          (getTargetMaterials debugOutput target).2) := by
  refine ⟨getTargetMaterials_length debugOutput target, ?_, ?_⟩
  · intro i hslot
    rw [getTargetMaterials_get?, hslot]
    simp [resolveSlotEntry]
  · intro i dc met links hslot hunk
    have hnodes : resolveSlotEntry debugOutput target.name (some ⟨true, dc, met, links⟩) =
        links.foldl (resolveNodeStep target.name) (none, []) := rfl
    constructor
    · rw [getTargetMaterials_get?, hslot]
      show some ((links.foldl (resolveNodeStep target.name) (none, [])).1) = some none
      rw [resolveNodeStep_fst_of_unknown target.name links hunk (none, [])]
    · intro ty hty
      have hmem : (resolveSlotEntry debugOutput target.name (some ⟨true, dc, met, links⟩)).2 ∈
          (target.material_slots.map (resolveSlotEntry debugOutput target.name)).map Prod.snd := by
        apply List.mem_map_of_mem
        apply List.mem_map_of_mem
        exact List.get?_mem hslot
      have hwm : ("Unknown material type for object " ++ target.name ++ "!") ∈
          (resolveSlotEntry debugOutput target.name (some ⟨true, dc, met, links⟩)).2 := by
        rw [hnodes]
        exact resolveNodeStep_warn_of_unknown target.name links ty hty _
      unfold getTargetMaterials
      exact List.mem_flatten.mpr ⟨_, hmem, hwm⟩

/-- A concrete two-slot target for C7: an empty slot and a material whose
only surface node is of unknown kind. -/
def sampleTargetUnknown : Object :=
  ⟨"lamp", [none, some ⟨true, (0, 0, 0, 0), 0, [.unknown "EMISSION"]⟩], ⟨[], [], none⟩, id⟩

/-- C7 witness: on `sampleTargetUnknown` the resolver returns both entries
(empty slot and unknown node each left empty), and the unknown-material
warning is observable in the printed output. -/
theorem c7_degrades_without_exception_witness :
    (getTargetMaterials false sampleTargetUnknown).1.length = 2 ∧
    (getTargetMaterials false sampleTargetUnknown).1.get? 0 = some none ∧
    (getTargetMaterials false sampleTargetUnknown).1.get? 1 = some none ∧
    ("Unknown material type for object lamp!") ∈
      (getTargetMaterials false sampleTargetUnknown).2 := by
  obtain ⟨hlen, hempty, hunk⟩ := c7_degrades_without_exception false sampleTargetUnknown
  have hall : ∀ n ∈ [ShaderNode.unknown "EMISSION"], ∃ ty, n = ShaderNode.unknown ty := by
    intro n hn
    rw [List.mem_singleton] at hn
    exact ⟨"EMISSION", hn⟩
  have h1 := hunk 1 (0, 0, 0, 0) 0 [ShaderNode.unknown "EMISSION"] rfl hall
  exact ⟨hlen.trans rfl, hempty 0 rfl, h1.1,
    h1.2 "EMISSION" (List.mem_singleton.mpr rfl)⟩

/-! ### Further indexing lemmas for `getPixel` -/

theorem pyIdx_err_high {l : List ℚ} {i : ℤ} (h0 : 0 ≤ i) (h1 : (l.length : ℤ) ≤ i) :
    pyIdx l i = .error .indexError := by
  unfold pyIdx pyNormIdx
  rw [if_pos h0, if_neg (by omega)]
  rfl

theorem pyIdx_neg_ok {l : List ℚ} {i : ℤ} (h0 : i < 0) (h1 : 0 ≤ i + (l.length : ℤ)) :
    pyIdx l i = .ok (elemAt l (i + (l.length : ℤ)).toNat) := by
  unfold pyIdx pyNormIdx
  rw [if_neg (by omega), if_pos h1]
  have hlt : (i + (l.length : ℤ)).toNat < l.length := by omega
  have := List.get?_eq_get (l := l) (n := (i + (l.length : ℤ)).toNat) hlt
  simp only [Except.bind, bind]
  rw [this]
  unfold elemAt
  rw [this]
  rfl

/-! ### C10: zero-variance noise -/

/-- C10: drawing a noise sample with standard deviation `0.0` returns exactly
the mean, for a scalar mean and for an array-valued mean alike (the normal
draw `loc + scale * z` degenerates to `loc` when `scale = 0`). -/
theorem c10_zero_sigma_identity :
    (∀ gauss mu : ℚ, applyNoise gauss mu 0 = mu) ∧
    (∀ (gauss mu : List ℚ), gauss.length = mu.length → applyNoiseVec gauss mu 0 = mu) := by
  constructor
  · intro g m
    unfold applyNoise
    ring
  · intro gs mus hlen
    induction mus generalizing gs with
    | nil => rfl
    | cons m ms ih =>
      cases gs with
      | nil => simp at hlen
      | cons g gs' =>
        unfold applyNoiseVec
        simp only [List.zip_cons_cons, List.map_cons]
        have hm : m + 0 * g = m := by ring
        rw [hm]
        have htail := ih gs' (by simpa using hlen)
        unfold applyNoiseVec at htail
        rw [htail]

/-- C10 witness: the theorem applied to the scalar mean `5` and the array
mean `[4, 9/2]` with standard deviation `0`. -/
theorem c10_zero_sigma_identity_witness :
    applyNoise (7 / 2) 5 0 = 5 ∧ applyNoiseVec [1 / 2, 3] [4, 9 / 2] 0 = [4, 9 / 2] :=
  ⟨c10_zero_sigma_identity.1 (7 / 2) 5,
   c10_zero_sigma_identity.2 [1 / 2, 3] [4, 9 / 2] rfl⟩

/-! ### C3: behaviour on missing table entries -/

/-- C3 counterexample: with the resolved table `[none]` (one empty entry, as
`getTargetMaterials` produces for an empty slot) the appearance lookup raises
`AttributeError` (the code evaluates `material.texture` on `None`); with the
empty table and slot index `0` it raises `IndexError`.  In neither case does
it return a "no material" sentinel — there is no `.ok` result at all. -/
theorem c3_counterexample_raises :
    getMaterialColorAndMetallic (fun _ _ => []) ⟨⟨"obj", [], ⟨[], [], none⟩, id⟩, 0, (0, 0, 0)⟩
      [none] [0] = .error .attributeError ∧
    getMaterialColorAndMetallic (fun _ _ => []) ⟨⟨"obj", [], ⟨[], [], none⟩, id⟩, 0, (0, 0, 0)⟩
      [] [0] = .error .indexError := by
  constructor <;> rfl

/-- C3 amended: for a hit whose face maps to slot index `mi`, an out-of-range
slot index makes `getMaterialColorAndMetallic` raise `IndexError`, and an
empty (unresolved) table entry makes it raise `AttributeError`; it does not
return a sentinel result. -/
theorem c3_amended_raises (poly3dCalc : List V3 → V3 → List ℚ) (hit : Hit)
    (materials : List (Option MaterialProperty)) (faceMapping : List ℤ) (mi : ℤ)
    (hmi : pyIdx faceMapping (hit.faceIndex : ℤ) = .ok mi) :
    (pyNormIdx materials.length mi = .error .indexError →
      getMaterialColorAndMetallic poly3dCalc hit materials faceMapping =
        .error .indexError) ∧
    (∀ slot : ℕ, pyNormIdx materials.length mi = .ok slot →
      materials.get? slot = some none →
      getMaterialColorAndMetallic poly3dCalc hit materials faceMapping =
        .error .attributeError) := by
  constructor
  · intro hnorm
    unfold getMaterialColorAndMetallic
    rw [hmi]
    simp only [Except.bind, bind]
    rw [hnorm]
  · intro slot hnorm hentry
    unfold getMaterialColorAndMetallic
    rw [hmi]
    simp only [Except.bind, bind]
    rw [hnorm]
    simp only [Except.bind, bind]
    rw [hentry]

/-- C3 amended witness: the amended theorem applied to a concrete hit, a
table with a single empty entry, and a table too short for the slot index. -/
theorem c3_amended_raises_witness :
    getMaterialColorAndMetallic (fun _ _ => [1]) ⟨⟨"wall", [], ⟨[], [], none⟩, id⟩, 0, (1, 2, 3)⟩
      [none, none] [1] = .error .attributeError ∧
    getMaterialColorAndMetallic (fun _ _ => [1]) ⟨⟨"wall", [], ⟨[], [], none⟩, id⟩, 0, (1, 2, 3)⟩
      [none] [5] = .error .indexError := by
  constructor
  · exact (c3_amended_raises (fun _ _ => [1]) ⟨⟨"wall", [], ⟨[], [], none⟩, id⟩, 0, (1, 2, 3)⟩
      [none, none] [1] 1 rfl).2 1 rfl rfl
  · exact (c3_amended_raises (fun _ _ => [1]) ⟨⟨"wall", [], ⟨[], [], none⟩, id⟩, 0, (1, 2, 3)⟩
      [none] [5] 5 rfl).1 rfl

/-! ### C4: error kind of the texture-lookup precondition checks -/

/-- C4 counterexample: on a mesh without an active UV layer `getUVCoord`
fails with a plain `AssertionError` (from the Python `assert`), which is not
a typed `MissingUVMapError`; and on an image with an empty pixel buffer
`getUVPixelColor` fails with a plain `AssertionError`, which is not a typed
`EmptyTextureError`.  The error classes named by the claim do not exist in
the code. -/
theorem c4_counterexample_assertion_not_typed :
    getUVCoord (fun _ _ => []) ⟨[], [⟨[], []⟩], none⟩ ⟨[], []⟩ (0, 0, 0) (1, 1) =
      .error .assertionError ∧
    (Except.error PyError.assertionError ≠
      (Except.error PyError.missingUVMapError : Except PyError (ℤ × ℤ))) ∧
    getUVPixelColor (fun _ _ => []) ⟨[], [⟨[], []⟩], some ⟨[]⟩⟩ 0 (0, 0, 0) ⟨[], (1, 1)⟩ =
      .error .assertionError ∧
    (Except.error PyError.assertionError ≠
      (Except.error PyError.emptyTextureError : Except PyError RGBA)) :=
  ⟨rfl, fun hcontra => PyError.noConfusion (Except.error.inj hcontra),
   rfl, fun hcontra => PyError.noConfusion (Except.error.inj hcontra)⟩

/-- C4 amended: the precondition violations are fatal and are surfaced as
errors, not as return values — but as Python `AssertionError`s from `assert`
statements, not as typed errors named `MissingUVMapError` or
`EmptyTextureError`. -/
theorem c4_amended_assertion_errors :
    (∀ (poly3dCalc : List V3 → V3 → List ℚ) (mesh : Mesh) face point imageSize,
      mesh.uv_layers_active = none →
      getUVCoord poly3dCalc mesh face point imageSize = .error .assertionError) ∧
    (∀ (poly3dCalc : List V3 → V3 → List ℚ) mesh face_idx point (image : Image),
      image.pixels = [] →
      getUVPixelColor poly3dCalc mesh face_idx point image = .error .assertionError) := by
  constructor
  · intro pc mesh face point imageSize hnone
    unfold getUVCoord
    rw [hnone]
  · intro pc mesh face_idx point image hempty
    unfold getUVPixelColor
    rw [hempty]
    rfl

/-- C4 amended witness: the amended theorem applied to a concrete mesh with
no UV map and a concrete image with an empty pixel buffer. -/
theorem c4_amended_assertion_errors_witness :
    getUVCoord (fun _ _ => [1]) ⟨[(0, 0, 0)], [⟨[0], [0]⟩], none⟩ ⟨[0], [0]⟩ (0, 0, 0) (4, 4) =
      .error .assertionError ∧
    getUVPixelColor (fun _ _ => [1]) ⟨[(0, 0, 0)], [⟨[0], [0]⟩], none⟩ 0 (0, 0, 0) ⟨[], (4, 4)⟩ =
      .error .assertionError :=
  ⟨c4_amended_assertion_errors.1 (fun _ _ => [1]) ⟨[(0, 0, 0)], [⟨[0], [0]⟩], none⟩
      ⟨[0], [0]⟩ (0, 0, 0) (4, 4) rfl,
   c4_amended_assertion_errors.2 (fun _ _ => [1]) ⟨[(0, 0, 0)], [⟨[0], [0]⟩], none⟩
      0 (0, 0, 0) ⟨[], (4, 4)⟩ rfl⟩

/-! ### C5: out-of-bounds pixel indices -/

/-- C5 counterexample: with malformed size metadata `width = 0`, a legitimate
wrapped UV location `(0.9, 0)` produces the pixel coordinate `(-1, 0)`, whose
computed linear pixel index `-1` lies outside the buffer bounds — yet
`getPixel` on an 8-float (two-texel) buffer silently returns the last texel
`(5, 6, 7, 8)` via Python negative indexing instead of surfacing a typed
error. -/
theorem c5_counterexample_silent_negative_read :
    uvToPixelCoord (9 / 10, 0) (0, 1) = (-1, 0) ∧
    getPixel [1, 2, 3, 4, 5, 6, 7, 8] (0, 1) (-1, 0) = .ok (5, 6, 7, 8) := by
  constructor
  · have h1 : ⌊(9 / 10 : ℚ)⌋ = 0 := by norm_num [Int.floor_eq_iff]
    norm_num [uvToPixelCoord, pyMod1, pyRound, h1]
  · rfl

/-- C5 amended: a computed linear pixel index past the end of the buffer does
raise `IndexError`, but a negative computed index (still within `-len`) does
not error: `getPixel` silently wraps it and reads the corresponding texel
from the end of the buffer. -/
theorem c5_amended_wrap_behaviour (pixels : List ℚ) (w h x y : ℤ) :
    (0 ≤ w * y + x → (pixels.length : ℤ) ≤ (w * y + x) * 4 →
      getPixel pixels (w, h) (x, y) = .error .indexError) ∧
    ((w * y + x) * 4 < 0 → 0 ≤ (w * y + x) * 4 + (pixels.length : ℤ) →
      getPixel pixels (w, h) (x, y) =
        .ok (elemAt pixels ((w * y + x) * 4 + 0 + (pixels.length : ℤ)).toNat,
             elemAt pixels ((w * y + x) * 4 + 1 + (pixels.length : ℤ)).toNat,
             elemAt pixels ((w * y + x) * 4 + 2 + (pixels.length : ℤ)).toNat,
             elemAt pixels ((w * y + x) * 4 + 3 + (pixels.length : ℤ)).toNat)) := by
  constructor
  · intro hpn hlen
    unfold getPixel
    dsimp only
    rw [pyIdx_err_high (by omega) (by omega)]
    rfl
  · intro hneg hlow
    have hpn : w * y + x < 0 := by nlinarith
    unfold getPixel
    dsimp only
    rw [pyIdx_neg_ok (by omega) (by omega), pyIdx_neg_ok (by omega) (by omega),
        pyIdx_neg_ok (by omega) (by omega), pyIdx_neg_ok (by omega) (by omega)]
    rfl

/-- C5 amended witness: the amended theorem applied to a 4-float buffer with
pixel coordinate `(1, 1)` of a 2×2 image (positive overflow, `IndexError`)
and to an 8-float buffer with coordinate `(-1, 0)` of a malformed 0-width
image (negative index, silent read of the last texel). -/
theorem c5_amended_wrap_behaviour_witness :
    getPixel [1, 2, 3, 4] (2, 2) (1, 1) = .error .indexError ∧
    getPixel [1, 2, 3, 4, 5, 6, 7, 8] (0, 1) (-1, 0) = .ok (5, 6, 7, 8) := by
  constructor
  · exact (c5_amended_wrap_behaviour [1, 2, 3, 4] 2 2 1 1).1 (by norm_num) (by norm_num)
  · have h := (c5_amended_wrap_behaviour [1, 2, 3, 4, 5, 6, 7, 8] 0 1 (-1) 0).2
      (by norm_num) (by norm_num)
    rw [h]
    rfl

/-! ### C9: the texture branch of the appearance lookup -/

/-- C9: when the hit's resolved entry carries a texture,
`getMaterialColorAndMetallic` transforms the hit location into the target's
local space via the inverse world matrix, samples the texture there, writes
the sampled RGBA into the shared entry's `color` field (leaving `texture`,
`metallic` and `ior` unchanged), and returns that same updated entry; when
the entry carries no texture, the table and the entry are returned entirely
unchanged. -/
theorem c9_texture_branch_updates_entry (poly3dCalc : List V3 → V3 → List ℚ)
    (hit : Hit) (materials : List (Option MaterialProperty)) (faceMapping : List ℤ)
    (mi : ℤ) (slot : ℕ) (material : MaterialProperty)
    (hmi : pyIdx faceMapping (hit.faceIndex : ℤ) = .ok mi)
    (hslot : pyNormIdx materials.length mi = .ok slot)
    (hmat : materials.get? slot = some (some material)) :
    (∀ texture rgba, material.texture = some texture →
      getUVPixelColor poly3dCalc hit.target.data hit.faceIndex
          (hit.target.matrix_world_inverted hit.location) texture = .ok rgba →
      getMaterialColorAndMetallic poly3dCalc hit materials faceMapping =
        .ok (materials.set slot (some { material with color := some rgba }),
             { material with color := some rgba })) ∧
    (material.texture = none →
      getMaterialColorAndMetallic poly3dCalc hit materials faceMapping =
        .ok (materials, material)) := by
  constructor
  · intro texture rgba htex hsample
    unfold getMaterialColorAndMetallic
    rw [hmi]
    simp only [Except.bind, bind]
    rw [hslot]
    simp only [Except.bind, bind]
    rw [hmat]
    simp only
    rw [htex]
    simp only [Except.bind, bind]
    rw [hsample]
  · intro hnone
    unfold getMaterialColorAndMetallic
    rw [hmi]
    simp only [Except.bind, bind]
    rw [hslot]
    simp only [Except.bind, bind]
    rw [hmat]
    simp only
    rw [hnone]

/-- C9 witness: a concrete 1×1-texture scenario.  The sampled texel
`(1/2, 1/4, 3/4, 1)` is written into the entry's `color`, the remaining
fields survive, and the returned entry equals the updated table entry; a
texture-less entry is passed through unchanged. -/
theorem c9_texture_branch_updates_entry_witness :
    getMaterialColorAndMetallic (fun _ _ => [1])
        ⟨⟨"tex", [], ⟨[(0, 0, 0)], [⟨[0], [0]⟩], some ⟨[(0, 0)]⟩⟩, id⟩, 0, (0, 0, 0)⟩
        [some ⟨none, some ⟨[1 / 2, 1 / 4, 3 / 4, 1], (1, 1)⟩, 9 / 10, 0⟩] [0] =
      .ok ([some ⟨some (1 / 2, 1 / 4, 3 / 4, 1), some ⟨[1 / 2, 1 / 4, 3 / 4, 1], (1, 1)⟩, 9 / 10, 0⟩],
           ⟨some (1 / 2, 1 / 4, 3 / 4, 1), some ⟨[1 / 2, 1 / 4, 3 / 4, 1], (1, 1)⟩, 9 / 10, 0⟩) ∧
    getMaterialColorAndMetallic (fun _ _ => [1])
        ⟨⟨"flat", [], ⟨[], [], none⟩, id⟩, 0, (0, 0, 0)⟩
        [some ⟨some (1, 0, 0, 1), none, 1 / 5, 0⟩] [0] =
      .ok ([some ⟨some (1, 0, 0, 1), none, 1 / 5, 0⟩], ⟨some (1, 0, 0, 1), none, 1 / 5, 0⟩) := by
  constructor
  · have hsample : getUVPixelColor (fun _ _ => [1]) ⟨[(0, 0, 0)], [⟨[0], [0]⟩], some ⟨[(0, 0)]⟩⟩
        0 (0, 0, 0) ⟨[1 / 2, 1 / 4, 3 / 4, 1], (1, 1)⟩ = .ok (1 / 2, 1 / 4, 3 / 4, 1) := by
      norm_num [getUVPixelColor, getUVCoord, uvInterp, uvToPixelCoord, pyMod1, pyRound,
        pyGetN, getPixel, pyIdx, pyNormIdx, Except.bind, bind, pure, Except.pure,
        Int.toNat, List.getElem?_cons_succ, List.getElem?_cons_zero, List.mapM.loop,
        List.foldl_cons, List.foldl_nil, Int.floor_zero]
    exact (c9_texture_branch_updates_entry (fun _ _ => [1])
        ⟨⟨"tex", [], ⟨[(0, 0, 0)], [⟨[0], [0]⟩], some ⟨[(0, 0)]⟩⟩, id⟩, 0, (0, 0, 0)⟩
        [some ⟨none, some ⟨[1 / 2, 1 / 4, 3 / 4, 1], (1, 1)⟩, 9 / 10, 0⟩] [0]
        0 0 ⟨none, some ⟨[1 / 2, 1 / 4, 3 / 4, 1], (1, 1)⟩, 9 / 10, 0⟩ rfl rfl rfl).1
      ⟨[1 / 2, 1 / 4, 3 / 4, 1], (1, 1)⟩ (1 / 2, 1 / 4, 3 / 4, 1) rfl hsample
  · exact (c9_texture_branch_updates_entry (fun _ _ => [1])
        ⟨⟨"flat", [], ⟨[], [], none⟩, id⟩, 0, (0, 0, 0)⟩
        [some ⟨some (1, 0, 0, 1), none, 1 / 5, 0⟩] [0]
        0 0 ⟨some (1, 0, 0, 1), none, 1 / 5, 0⟩ rfl rfl rfl).2 rfl

end RangeScanner
